import Mathlib

/-!
Verification of the evaluation glue of the `detectron2_Faster_RCNN` repository.

The development shallowly embeds the two source files
`detectron2/evaluation/cityscapes_evaluation.py` and
`detectron2/modeling/extra_neck/build.py`.  File-system writes are modelled as
the records the code would write; the external cityscapes scorer is a black box
whose numeric results are parameters; distributed communication is modelled by
the integer rank of the calling worker together with an explicit trace of the
observable effects (barrier, ground-truth enumeration, scoring, cleanup).
Python exceptions are modelled by an error type, and fallible steps return
`Except`.
-/

/-- Python exceptions that the embedded code can raise. -/
inductive PyError where
  /-- `IndexError`, e.g. `lst[0]` on an empty list. -/
  | indexError : PyError
  /-- `ValueError`, e.g. `int("labelIds")`. -/
  | valueError : PyError
  /-- `UnboundLocalError`: reading a local variable that was never assigned. -/
  | unboundLocalError : PyError
  /-- `AssertionError` from a failed `assert`. -/
  | assertionError : PyError
  /-- `ZeroDivisionError` from `% 0`. -/
  | zeroDivisionError : PyError
  /-- `KeyError` from a failed mapping lookup. -/
  | keyError : String → PyError
deriving DecidableEq

/-- Observable effects of an `evaluate()` call, in order of occurrence:
the `comm.synchronize()` barrier, the `glob.glob` ground-truth enumeration,
the call into the external cityscapes scorer, and the scratch-directory
cleanup (`self._working_dir.cleanup()`). -/
inductive Effect where
  | barrier : Effect
  | globEnum : Effect
  | score : Effect
  | cleanup : Effect
deriving DecidableEq

deriving instance DecidableEq for Except

/-- Result of one `evaluate()` call: the trace of observable effects performed,
and either a raised exception or the returned value (`none` models Python's
implicit `return None` on non-coordinator ranks). -/
structure Outcome (α : Type) where
  trace : List Effect
  result : Except PyError (Option α)
deriving DecidableEq

/-! ### Strings: Python `str.split` and `int`, on explicit character lists -/

/-- Helper for `splitOnChar`: `acc` holds the current chunk reversed. -/
def splitOnCharAux (c : Char) : List Char → List Char → List (List Char)
  | [], acc => [acc.reverse]
  | x :: xs, acc =>
    if x = c then acc.reverse :: splitOnCharAux c xs []
    else splitOnCharAux c xs (x :: acc)

/-- Python `s.split(c)` for a single-character separator `c`
(`"".split(c) == ['']`, matching `splitOnCharAux c [] [] = [[]]`). -/
def splitOnChar (c : Char) (s : List Char) : List (List Char) :=
  splitOnCharAux c s []

/-- The numeric value of a decimal digit character, if it is one. -/
def digitVal? (c : Char) : Option Nat :=
  if '0' ≤ c ∧ c ≤ '9' then some (c.toNat - '0'.toNat) else none

/-- Python `int(s)` for a non-negative decimal literal: `none` models the
`ValueError` that `int` raises on the empty string or a non-digit character.
(Signs, whitespace and non-ASCII digits do not occur in the file names this
code parses and are not modelled.) -/
def digitsToNat? (cs : List Char) : Option Nat :=
  if cs = [] then none
  else
    cs.foldl
      (fun acc c =>
        match acc, digitVal? c with
        | some n, some d => some (n * 10 + d)
        | _, _ => none)
      (some 0)

/-- The frame-index parse performed (three times, with the same result) by
`ViperCityscapesSemSegEvaluator.evaluate`, lines 250/252/254:
`int(path.split('/')[-1].split('_')[-1].split('.')[0])`.
`none` models the `ValueError` raised when the final underscore-separated
token before the first dot is not a decimal number. -/
def frameIdx? (s : String) : Option Nat :=
  let name := (splitOnChar '/' s.toList).getLastD []
  let tail := (splitOnChar '_' name).getLastD []
  let stem := (splitOnChar '.' tail).headD []
  digitsToNat? stem

/-! ### Python `sorted` on strings (lexicographic by code point) -/

/-- Lexicographic `<=` on character lists, by code point — Python's string
comparison. -/
def charListLe : List Char → List Char → Bool
  | [], _ => true
  | _ :: _, [] => false
  | a :: as, b :: bs => if a = b then charListLe as bs else decide (a < b)

/-- Insert into a sorted list, keeping `charListLe` order. -/
def insertSorted (a : String) : List String → List String
  | [] => [a]
  | b :: bs => if charListLe a.toList b.toList then a :: b :: bs else b :: insertSorted a bs

/-- Python `sorted` on a list of strings (an insertion sort; Python's sort is
stable and `insertSorted` inserts after equal elements only when placed before
them, which agrees set-wise — the claims below depend only on the sorted
list's contents and head). -/
def sortStrings : List String → List String
  | [] => []
  | a :: as => insertSorted a (sortStrings as)

/-! ### The temporal subsampling loop (`cityscapes_evaluation.py` lines 250-256)

```
start_idx = int(groundTruthImgList[0].split('/')[-1].split('_')[-1].split('.')[0])
for x in range(len(groundTruthImgList)):
    if int(...) > self.inf_start:
        if int(...) % self.skip_interv == start_idx:
            groundTruthImgList_tmp.append(groundTruthImgList[x])
groundTruthImgList = groundTruthImgList_tmp
```

`filterLoop` is the loop as run on the non-cityscapes branch, where
`groundTruthImgList_tmp` was initialised to `[]` (line 247); it returns the
filtered list, or the first exception: `ValueError` from `int`, or
`ZeroDivisionError` when `skip = 0` and the `%` is reached. -/

/-- The loop body's filter, on the non-cityscapes branch. -/
def filterLoop (inf_start skip_interv start_idx : Nat) :
    List String → Except PyError (List String)
  | [] => .ok []
  | g :: gs =>
    match frameIdx? g with
    | none => .error .valueError
    | some n =>
      if inf_start < n then
        if skip_interv = 0 then .error .zeroDivisionError
        else if n % skip_interv = start_idx then
          match filterLoop inf_start skip_interv start_idx gs with
          | .error e => .error e
          | .ok rest => .ok (g :: rest)
        else filterLoop inf_start skip_interv start_idx gs
      else filterLoop inf_start skip_interv start_idx gs

/-- The same loop on the `cityscapes` branch, where `groundTruthImgList_tmp`
was never assigned: the first reached `.append` raises `UnboundLocalError`,
a failed `int` raises `ValueError` first, and if the loop finishes without
either, line 256 (`groundTruthImgList = groundTruthImgList_tmp`) raises
`UnboundLocalError` — hence `none` here means "loop ended quietly". -/
def filterLoopCS (inf_start skip_interv start_idx : Nat) :
    List String → Option PyError
  | [] => none
  | g :: gs =>
    match frameIdx? g with
    | none => some .valueError
    | some n =>
      if inf_start < n then
        if skip_interv = 0 then some .zeroDivisionError
        else if n % skip_interv = start_idx then some .unboundLocalError
        else filterLoopCS inf_start skip_interv start_idx gs
      else filterLoopCS inf_start skip_interv start_idx gs

/-- The predicate the loop actually keeps (on a success run): frame index
parses, is strictly above `inf_start`, and its remainder mod `skip_interv`
*equals* `start_idx` (the raw first frame index, not its residue). -/
def gtKeep (inf_start skip_interv start_idx : Nat) (g : String) : Bool :=
  match frameIdx? g with
  | some n => decide (inf_start < n) && decide (n % skip_interv = start_idx)
  | none => false

/-- The subsampling as the specification words it: keep the files whose frame
index is strictly above the warm-up offset and *congruent to the first file's
frame index modulo the skip interval*. -/
def subsampleClaim (inf_start skip_interv : Nat) (l : List String) : List String :=
  match l with
  | [] => []
  | f :: _ =>
    l.filter fun g =>
      match frameIdx? g, frameIdx? f with
      | some n, some s => decide (inf_start < n) && decide (n % skip_interv = s % skip_interv)
      | _, _ => false

/-! ### The temporal (video) evaluator `ViperCityscapesSemSegEvaluator.evaluate` -/

/-- The scalar results returned by the external scorer's
`evaluateImgLists_video` (a black box; field names follow the keys the code
reads).  Scalars are modelled as rationals. -/
structure ViperScores where
  averageScoreClasses : ℚ
  averageScoreCategories : ℚ
  averageScoreClasses_vid5 : ℚ
  averageScoreCategories_vid5 : ℚ
  averageScoreClasses_vid10 : ℚ
  averageScoreCategories_vid10 : ℚ
  averageScoreClasses_vid15 : ℚ
  averageScoreCategories_vid15 : ℚ
deriving DecidableEq

/-- The `ret["sem_seg"]` sub-dictionary built at lines 295-304 (fixed literal
keys, so modelled as a record whose fields are the keys). -/
structure ViperSemSeg where
  IoU : ℚ
  IoU_sup : ℚ
  VIoU_5 : ℚ
  VIoU_sup_5 : ℚ
  VIoU_10 : ℚ
  VIoU_sup_10 : ℚ
  VIoU_15 : ℚ
  VIoU_sup_15 : ℚ
deriving DecidableEq

/-- The `ret["sem_seg_Vid"]` sub-dictionary (lines 306-314). -/
structure ViperVid where
  VIoU_total : ℚ
  VIoU_sup_total : ℚ
deriving DecidableEq

/-- The `ret["sem_seg_ImgVid"]` sub-dictionary (lines 317-322). -/
structure ViperImgVid where
  ImgVid_IoU_Total : ℚ
  ImgVid_sup_IoU_Total : ℚ
deriving DecidableEq

/-- The full `ret` ordered dictionary returned at line 327. -/
structure ViperRet where
  sem_seg : ViperSemSeg
  sem_seg_Vid : ViperVid
  sem_seg_ImgVid : ViperImgVid
deriving DecidableEq

/-- Lines 291-322: reshape the scorer's results into `ret`, mirroring the
source expressions (each later group is computed from the entries of the
earlier groups, exactly as the code looks them up in `ret`). -/
def viperRet (r : ViperScores) : ViperRet :=
  let sem_seg : ViperSemSeg :=
    { IoU := 100 * r.averageScoreClasses
      IoU_sup := 100 * r.averageScoreCategories
      VIoU_5 := 100 * r.averageScoreClasses_vid5
      VIoU_sup_5 := 100 * r.averageScoreCategories_vid5
      VIoU_10 := 100 * r.averageScoreClasses_vid10
      VIoU_sup_10 := 100 * r.averageScoreCategories_vid10
      VIoU_15 := 100 * r.averageScoreClasses_vid15
      VIoU_sup_15 := 100 * r.averageScoreCategories_vid15 }
  let sem_seg_Vid : ViperVid :=
    { VIoU_total := (sem_seg.VIoU_5 + sem_seg.VIoU_10 + sem_seg.VIoU_15) / 3
      VIoU_sup_total := (sem_seg.VIoU_sup_5 + sem_seg.VIoU_sup_10 + sem_seg.VIoU_sup_15) / 3 }
  let sem_seg_ImgVid : ViperImgVid :=
    { ImgVid_IoU_Total := (sem_seg_Vid.VIoU_total * 3 + sem_seg.IoU) / 4
      ImgVid_sup_IoU_Total := (sem_seg_Vid.VIoU_sup_total * 3 + sem_seg.IoU_sup) / 4 }
  ⟨sem_seg, sem_seg_Vid, sem_seg_ImgVid⟩

/-- `ViperCityscapesSemSegEvaluator.evaluate` (lines 219-327).
`globResult` is the raw `glob.glob` enumeration of the ground-truth directory
for whichever branch's pattern applies (the branch only changes the pattern);
the code then sorts it.  Line 250 raises `IndexError` on an empty list and
`ValueError` when the first name's frame index does not parse (the branch at
line 241 only chooses the glob pattern, so parsing the head before examining
the branch is equivalent to the source order).  On the `cityscapes` branch the
loop's accumulator `groundTruthImgList_tmp` is unbound, so the branch always
ends in an exception (`filterLoopCS`; a quiet loop still hits the unbound read
at line 256).  Otherwise the surviving list must be non-empty (the `assert` at
line 260) and the scorer's reshaped results are returned. -/
def viperEvaluate (rank : Nat) (dataset_type : String) (inf_start skip_interv : Nat)
    (globResult : List String) (r : ViperScores) : Outcome ViperRet :=
  if rank > 0 then ⟨[.barrier], .ok none⟩
  else
    match sortStrings globResult with
    | [] => ⟨[.barrier, .globEnum], .error .indexError⟩
    | f :: rest =>
      match frameIdx? f with
      | none => ⟨[.barrier, .globEnum], .error .valueError⟩
      | some start_idx =>
        if dataset_type = "cityscapes" then
          ⟨[.barrier, .globEnum],
           .error ((filterLoopCS inf_start skip_interv start_idx (f :: rest)).getD
                     .unboundLocalError)⟩
        else
          match filterLoop inf_start skip_interv start_idx (f :: rest) with
          | .error e => ⟨[.barrier, .globEnum], .error e⟩
          | .ok filtered =>
            if filtered.isEmpty then ⟨[.barrier, .globEnum], .error .assertionError⟩
            else ⟨[.barrier, .globEnum, .score, .cleanup], .ok (some (viperRet r))⟩

/-! ### The instance evaluator `CityscapesInstanceEvaluator.evaluate` (lines 84-122) -/

/-- The scalar averages read from the external scorer's
`evaluateImgLists(...)["averages"]` at line 120: keys `"allAp"` and
`"allAp50%"` (the `%` of the second key cannot appear in a Lean name). -/
structure InstScores where
  allAp : ℚ
  allAp50 : ℚ
deriving DecidableEq

/-- Lines 119-120: `ret["segm"] = {"AP": results["allAp"] * 100,
"AP50": results["allAp50%"] * 100}`, modelled as the association list the
ordered dictionary holds. -/
def instRet (r : InstScores) : List (String × List (String × ℚ)) :=
  [("segm", [("AP", r.allAp * 100), ("AP50", r.allAp50 * 100)])]

/-- `CityscapesInstanceEvaluator.evaluate`: barrier, rank gate (line 90),
ground-truth enumeration (`globResult` is the `glob.glob` result, line 106),
the `assert len(groundTruthImgList)` (line 107), external scoring and
reshaping, cleanup. -/
def instanceEvaluate (rank : Nat) (globResult : List String) (r : InstScores) :
    Outcome (List (String × List (String × ℚ))) :=
  if rank > 0 then ⟨[.barrier], .ok none⟩
  else if globResult.isEmpty then ⟨[.barrier, .globEnum], .error .assertionError⟩
  else ⟨[.barrier, .globEnum, .score, .cleanup], .ok (some (instRet r))⟩

/-! ### The semantic evaluator `CityscapesSemSegEvaluator.evaluate` (lines 151-190) -/

/-- The scalar averages the code reads from the external scorer's result at
lines 183-188. -/
structure SemScores where
  averageScoreClasses : ℚ
  averageScoreInstClasses : ℚ
  averageScoreCategories : ℚ
  averageScoreInstCategories : ℚ
deriving DecidableEq

/-- Lines 182-188: `ret["sem_seg"] = {...}`. -/
def semSegRet (r : SemScores) : List (String × List (String × ℚ)) :=
  [("sem_seg",
    [("IoU", 100 * r.averageScoreClasses),
     ("iIoU", 100 * r.averageScoreInstClasses),
     ("IoU_sup", 100 * r.averageScoreCategories),
     ("iIoU_sup", 100 * r.averageScoreInstCategories)])]

/-- `CityscapesSemSegEvaluator.evaluate`: same shape as the instance variant,
with the `*_gtFine_labelIds.png` enumeration and the semantic reshaping. -/
def semSegEvaluate (rank : Nat) (globResult : List String) (r : SemScores) :
    Outcome (List (String × List (String × ℚ))) :=
  if rank > 0 then ⟨[.barrier], .ok none⟩
  else if globResult.isEmpty then ⟨[.barrier, .globEnum], .error .assertionError⟩
  else ⟨[.barrier, .globEnum, .score, .cleanup], .ok (some (semSegRet r))⟩

/-! ### File names: the `os.path` fragments `process()` uses -/

/-- `os.path.join(a, b)` for the two-argument relative form used here. -/
def pathJoin (a b : String) : String := a ++ "/" ++ b

/-- `os.path.basename`. -/
def osBasename (s : String) : String :=
  String.mk ((splitOnChar '/' s.toList).getLastD [])

/-- `os.path.splitext(s)[0]`: drop the final `.ext`, if any.  (The Python
corner case of a leading-dot file name is not modelled; no claim involves
one.) -/
def splitextRoot (s : String) : String :=
  match splitOnChar '.' s.toList with
  | [] => s
  | [_] => s
  | parts => String.mk (List.intercalate ['.'] parts.dropLast)

/-! ### `CityscapesSemSegEvaluator.process` (lines 135-149) -/

/-- One entry of the external `trainId2label` table — the two fields this
code reads. -/
structure CSLabel where
  id : Nat
  ignoreInEval : Bool
deriving DecidableEq

/-- `pred[output == train_id] = val` on (flattened) equal-shape pixel arrays:
the numpy masked assignment of line 148. -/
def npWhereSet (output : List Nat) (train_id val : Nat) (pred : List Nat) : List Nat :=
  (output.zip pred).map fun p => if p.1 = train_id then val else p.2

/-- Lines 144-148: start from `255 * np.ones(output.shape, dtype=np.uint8)`
and, for each `(train_id, label)` of the table in order, skip it if
`label.ignoreInEval` and otherwise assign `label.id` at the pixels whose
predicted class equals `train_id`.  Pixel arrays are modelled flattened (the
loop is pointwise and shape-independent). -/
def semSegImage (trainId2label : List (Nat × CSLabel)) (output : List Nat) : List Nat :=
  trainId2label.foldl
    (fun pred kv => if kv.2.ignoreInEval then pred else npWhereSet output kv.1 kv.2.id pred)
    (output.map fun _ => 255)

/-- The same table fold per pixel: one predicted class value `t`, starting
from the current value `v0` (255 at the top of the loop). -/
def semSegPixelFrom (trainId2label : List (Nat × CSLabel)) (v0 t : Nat) : Nat :=
  trainId2label.foldl
    (fun v kv => if kv.2.ignoreInEval then v else if t = kv.1 then kv.2.id else v) v0

/-- What one iteration of the semantic `process` writes: the `_pred.png` path
(line 141) and its pixel contents (line 149). -/
structure PredPng where
  pred_filename : String
  pixels : List Nat
deriving DecidableEq

/-- One loop iteration of `CityscapesSemSegEvaluator.process` for one image;
`output` is the per-pixel `argmax` class map, flattened. -/
def semSegProcessImage (trainId2label : List (Nat × CSLabel)) (temp_dir file_name : String)
    (output : List Nat) : PredPng :=
  { pred_filename := pathJoin temp_dir (splitextRoot (osBasename file_name) ++ "_pred.png")
    pixels := semSegImage trainId2label output }

/-! ### `CityscapesInstanceEvaluator.process` (lines 60-82) -/

/-- One detected instance of `output["instances"]`: predicted class index,
confidence score, and the binary mask (`uint8` values after `astype`,
row-major). -/
structure InstanceOut where
  pred_class : Nat
  score : ℚ
  pred_mask : List (List Nat)
deriving DecidableEq

/-- One `{basename}_{i}_{classes}.png` mask file: its path and its `uint8`
pixels as saved. -/
structure MaskFile where
  png_filename : String
  pixels : List (List Nat)
deriving DecidableEq

/-- Everything one `process` iteration writes for one image: the manifest
file `{basename}_pred.txt` (its lines modelled as the `(mask file basename,
class id, score)` triples that line 82 formats as `"{} {} {}\n"`), and the
mask files. -/
structure InstPrediction where
  pred_txt : String
  lines : List (String × Nat × ℚ)
  masks : List MaskFile
deriving DecidableEq

/-- The `for i in range(num_instances)` loop (lines 71-82), carrying the loop
index `i`: look up the class name in `thing_classes` and the external class
id in `name2label` (external read-only tables, passed as data;
`thing_classes[pred_class]` out of range would raise in Python and occurs in
no claim), write the mask scaled by 255 in `uint8` arithmetic, and emit the
manifest line. -/
def instanceRecords (thing_classes : List String) (name2labelId : String → Nat)
    (temp_dir basename : String) :
    Nat → List InstanceOut → List ((String × Nat × ℚ) × MaskFile)
  | _, [] => []
  | i, inst :: rest =>
    let classes := thing_classes.getD inst.pred_class ""
    let class_id := name2labelId classes
    let png_filename :=
      pathJoin temp_dir (basename ++ "_" ++ toString i ++ "_" ++ classes ++ ".png")
    ((osBasename png_filename, class_id, inst.score),
      { png_filename := png_filename
        pixels := inst.pred_mask.map fun row => row.map fun m => m * 255 % 256 })
      :: instanceRecords thing_classes name2labelId temp_dir basename (i + 1) rest

/-- One iteration of `CityscapesInstanceEvaluator.process` for one image:
`open(pred_txt, "w")` (line 70) creates the manifest unconditionally, then
one line and one mask file are produced per instance. -/
def instanceProcessImage (thing_classes : List String) (name2labelId : String → Nat)
    (temp_dir file_name : String) (instances : List InstanceOut) : InstPrediction :=
  let basename := splitextRoot (osBasename file_name)
  let recs := instanceRecords thing_classes name2labelId temp_dir basename 0 instances
  { pred_txt := pathJoin temp_dir (basename ++ "_pred.txt")
    lines := recs.map Prod.fst
    masks := recs.map Prod.snd }

/-! ### The model factory `extra_neck/build.py` -/

/-- The configuration fields `build_model` reads: `cfg.MODEL.EXTRA_NECK` and
`cfg.MODEL.DEVICE`. -/
structure NeckCfg where
  MODEL_EXTRA_NECK : String
  MODEL_DEVICE : String

/-- A constructed model object: an opaque payload standing for the network,
the device it lives on, and whether weights have been loaded into it. -/
structure NNModule where
  payload : Nat
  device : String
  weightsLoaded : Bool
deriving DecidableEq

/-- `model.to(torch.device(dev))`: places the module on the device and does
nothing else. -/
def NNModule.to (m : NNModule) (dev : String) : NNModule := { m with device := dev }

/-- Modelled from the spec: the registry mechanism
(`detectron2.utils.registry.Registry`, used by `build.py` but not itself
under `src/`).  Per the spec, lookup resolves a registered name to its
constructor and "fails if the named variant is absent from the registry
(unknown-key error)". -/
def registryGet (registry : List (String × (NeckCfg → NNModule))) (name : String) :
    Except PyError (NeckCfg → NNModule) :=
  match registry.find? (fun p => p.1 = name) with
  | some p => .ok p.2
  | none => .error (.keyError name)

/-- `build_model` (`extra_neck/build.py` lines 15-23): registry lookup on
`cfg.MODEL.EXTRA_NECK`, construction with `cfg`, then `.to` the configured
device; no weight loading. -/
def build_model (registry : List (String × (NeckCfg → NNModule))) (cfg : NeckCfg) :
    Except PyError NNModule :=
  match registryGet registry cfg.MODEL_EXTRA_NECK with
  | .error e => .error e
  | .ok ctor => .ok ((ctor cfg).to cfg.MODEL_DEVICE)

/-- Sorted ground-truth file list with frame indices `{0, 5, 10, ..., 100}`,
the concrete instance named by the specification. -/
def gtExample : List String :=
  ["g/v_00000.png", "g/v_00005.png", "g/v_00010.png", "g/v_00015.png",
   "g/v_00020.png", "g/v_00025.png", "g/v_00030.png", "g/v_00035.png",
   "g/v_00040.png", "g/v_00045.png", "g/v_00050.png", "g/v_00055.png",
   "g/v_00060.png", "g/v_00065.png", "g/v_00070.png", "g/v_00075.png",
   "g/v_00080.png", "g/v_00085.png", "g/v_00090.png", "g/v_00095.png",
   "g/v_00100.png"]

/-- The files with frame indices `{30, 40, ..., 100}`. -/
def gtExpected : List String :=
  ["g/v_00030.png", "g/v_00040.png", "g/v_00050.png", "g/v_00060.png",
   "g/v_00070.png", "g/v_00080.png", "g/v_00090.png", "g/v_00100.png"]

/-- On a run that completes without an exception, the subsampling loop keeps
exactly the files selected by `gtKeep` (in order, with multiplicity). -/
theorem filterLoop_ok_eq_filter (inf_start skip_interv start_idx : Nat) :
    ∀ l out : List String,
      filterLoop inf_start skip_interv start_idx l = .ok out →
        out = l.filter (gtKeep inf_start skip_interv start_idx) := by
  intro l
  induction l with
  | nil =>
    intro out h
    simp only [filterLoop] at h
    cases h
    rfl
  | cons g gs ih =>
    intro out h
    simp only [filterLoop] at h
    cases hf : frameIdx? g with
    | none => rw [hf] at h; cases h
    | some n =>
      rw [hf] at h
      dsimp only at h
      by_cases h1 : inf_start < n
      · rw [if_pos h1] at h
        by_cases h0 : skip_interv = 0
        · rw [if_pos h0] at h; cases h
        · rw [if_neg h0] at h
          by_cases h2 : n % skip_interv = start_idx
          · rw [if_pos h2] at h
            cases hr : filterLoop inf_start skip_interv start_idx gs with
            | error e => rw [hr] at h; cases h
            | ok rest =>
              rw [hr] at h
              cases h
              simp [List.filter_cons, gtKeep, hf, h1, h2, ih rest hr]
          · rw [if_neg h2] at h
            simp [List.filter_cons, gtKeep, hf, h1, h2, ih out h]
      · rw [if_neg h1] at h
        simp [List.filter_cons, gtKeep, hf, h1, ih out h]

/-- **C1** (corrected): in the temporal variant's `evaluate()`, the sorted
ground-truth file list is filtered to exactly those files whose frame index is
strictly greater than the warm-up offset `INF_START` and whose frame index
*modulo `SKIP_EVAL` equals the first file's raw frame index* (`gtKeep`) — not,
in general, those congruent to the first index modulo the interval; the two
agree when the first index is below the interval.  In particular, for the
sorted frame indices `{0, 5, ..., 100}`, warm-up offset 20 and skip interval
10, the filtered list is exactly the files with indices `{30, 40, ..., 100}`. -/
theorem c1_subsampling :
    (∀ inf_start skip_interv start_idx : Nat, ∀ l out : List String,
        filterLoop inf_start skip_interv start_idx l = .ok out →
          out = l.filter (gtKeep inf_start skip_interv start_idx))
    ∧ sortStrings gtExample = gtExample
    ∧ frameIdx? "g/v_00000.png" = some 0
    ∧ filterLoop 20 10 0 gtExample = .ok gtExpected :=
  ⟨filterLoop_ok_eq_filter, by decide, by decide, by decide⟩

/-- **C1** witness: the general characterization applied to the claim's own
concrete example. -/
theorem c1_subsampling_witness :
    gtExpected = gtExample.filter (gtKeep 20 10 0) :=
  c1_subsampling.1 20 10 0 gtExample gtExpected c1_subsampling.2.2.2

/-- **C1** counterexample: with sorted frame indices `[10, 20]`, warm-up
offset 0 and skip interval 10, the loop's test `idx % 10 == 10` never holds
(the first frame index is 10, not its residue 0), so the code keeps nothing,
while the claim's "congruent to the first file's frame index modulo the skip
interval" keeps both files. -/
theorem c1_counterexample :
    filterLoop 0 10 10 ["g/v_00010.png", "g/v_00020.png"] = .ok []
    ∧ frameIdx? "g/v_00010.png" = some 10
    ∧ subsampleClaim 0 10 ["g/v_00010.png", "g/v_00020.png"]
        = ["g/v_00010.png", "g/v_00020.png"]
    ∧ ([] : List String) ≠ ["g/v_00010.png", "g/v_00020.png"] :=
  ⟨by decide, by decide, by decide, by decide⟩

/-- Inversion: if the temporal `evaluate()` completes normally with a value,
that value is the reshaping `viperRet` of the scorer's results. -/
theorem viperEvaluate_ok_inv (rank : Nat) (dataset_type : String)
    (inf_start skip_interv : Nat) (globResult : List String) (r : ViperScores)
    (ret : ViperRet)
    (h : (viperEvaluate rank dataset_type inf_start skip_interv globResult r).result
          = .ok (some ret)) :
    ret = viperRet r := by
  unfold viperEvaluate at h
  repeat' split at h
  all_goals simp_all

/-- **C2** (confirmed): whenever the temporal `evaluate()` returns a metrics
mapping, `VIoU_total` equals `(VIoU_5 + VIoU_10 + VIoU_15)/3` and
`ImgVid_IoU_Total` equals `(VIoU_total*3 + IoU)/4`, exactly, and likewise for
the `_sup` entries, whatever scalars the external scorer produced. -/
theorem c2_composite_metrics (rank : Nat) (dataset_type : String)
    (inf_start skip_interv : Nat) (globResult : List String) (r : ViperScores)
    (ret : ViperRet)
    (h : (viperEvaluate rank dataset_type inf_start skip_interv globResult r).result
          = .ok (some ret)) :
    ret.sem_seg_Vid.VIoU_total
        = (ret.sem_seg.VIoU_5 + ret.sem_seg.VIoU_10 + ret.sem_seg.VIoU_15) / 3
    ∧ ret.sem_seg_Vid.VIoU_sup_total
        = (ret.sem_seg.VIoU_sup_5 + ret.sem_seg.VIoU_sup_10 + ret.sem_seg.VIoU_sup_15) / 3
    ∧ ret.sem_seg_ImgVid.ImgVid_IoU_Total
        = (ret.sem_seg_Vid.VIoU_total * 3 + ret.sem_seg.IoU) / 4
    ∧ ret.sem_seg_ImgVid.ImgVid_sup_IoU_Total
        = (ret.sem_seg_Vid.VIoU_sup_total * 3 + ret.sem_seg.IoU_sup) / 4 := by
  have hret :=
    viperEvaluate_ok_inv rank dataset_type inf_start skip_interv globResult r ret h
  subst hret
  exact ⟨rfl, rfl, rfl, rfl⟩

/-- **C2** witness: a completed concrete run of the temporal `evaluate()`. -/
theorem c2_composite_metrics_witness :
    (viperRet ⟨1, 2, 3, 4, 5, 6, 7, 8⟩).sem_seg_Vid.VIoU_total
        = ((viperRet ⟨1, 2, 3, 4, 5, 6, 7, 8⟩).sem_seg.VIoU_5
            + (viperRet ⟨1, 2, 3, 4, 5, 6, 7, 8⟩).sem_seg.VIoU_10
            + (viperRet ⟨1, 2, 3, 4, 5, 6, 7, 8⟩).sem_seg.VIoU_15) / 3
    ∧ (viperRet ⟨1, 2, 3, 4, 5, 6, 7, 8⟩).sem_seg_Vid.VIoU_sup_total
        = ((viperRet ⟨1, 2, 3, 4, 5, 6, 7, 8⟩).sem_seg.VIoU_sup_5
            + (viperRet ⟨1, 2, 3, 4, 5, 6, 7, 8⟩).sem_seg.VIoU_sup_10
            + (viperRet ⟨1, 2, 3, 4, 5, 6, 7, 8⟩).sem_seg.VIoU_sup_15) / 3
    ∧ (viperRet ⟨1, 2, 3, 4, 5, 6, 7, 8⟩).sem_seg_ImgVid.ImgVid_IoU_Total
        = ((viperRet ⟨1, 2, 3, 4, 5, 6, 7, 8⟩).sem_seg_Vid.VIoU_total * 3
            + (viperRet ⟨1, 2, 3, 4, 5, 6, 7, 8⟩).sem_seg.IoU) / 4
    ∧ (viperRet ⟨1, 2, 3, 4, 5, 6, 7, 8⟩).sem_seg_ImgVid.ImgVid_sup_IoU_Total
        = ((viperRet ⟨1, 2, 3, 4, 5, 6, 7, 8⟩).sem_seg_Vid.VIoU_sup_total * 3
            + (viperRet ⟨1, 2, 3, 4, 5, 6, 7, 8⟩).sem_seg.IoU_sup) / 4 :=
  c2_composite_metrics 0 "viper" 20 10 ["g/v_00000.png", "g/v_00030.png"]
    ⟨1, 2, 3, 4, 5, 6, 7, 8⟩ (viperRet ⟨1, 2, 3, 4, 5, 6, 7, 8⟩) rfl

/-- **C3** (corrected): on the coordinator, the instance and plain semantic
variants fail with the `assert` (an `AssertionError`) when ground-truth
enumeration yields zero files, and the temporal variant fails with the
`assert` when a non-empty enumeration subsamples to zero files; but when the
temporal variant's enumeration itself is empty, the failure is an
`IndexError` at `groundTruthImgList[0]` (line 250), before the `assert` is
reached.  In every case the failure is immediate and no empty metrics
mapping is returned. -/
theorem c3_zero_groundtruth :
    (∀ r : InstScores, (instanceEvaluate 0 [] r).result = .error .assertionError)
    ∧ (∀ r : SemScores, (semSegEvaluate 0 [] r).result = .error .assertionError)
    ∧ (∀ (dataset_type : String) (inf_start skip_interv : Nat) (r : ViperScores),
        (viperEvaluate 0 dataset_type inf_start skip_interv [] r).result
          = .error .indexError)
    ∧ (∀ (dataset_type : String) (inf_start skip_interv : Nat)
        (globResult : List String) (f : String) (rest : List String)
        (start_idx : Nat) (r : ViperScores),
        dataset_type ≠ "cityscapes" →
        sortStrings globResult = f :: rest →
        frameIdx? f = some start_idx →
        filterLoop inf_start skip_interv start_idx (f :: rest) = .ok [] →
        (viperEvaluate 0 dataset_type inf_start skip_interv globResult r).result
          = .error .assertionError) := by
  refine ⟨fun r => rfl, fun r => rfl, fun d a k r => rfl, ?_⟩
  intro d a k l f rest s r hd hs hf hloop
  unfold viperEvaluate
  rw [if_neg (Nat.lt_irrefl 0), hs]
  dsimp only
  rw [hf]
  dsimp only
  rw [if_neg hd, hloop]
  rfl

/-- **C3** counterexample: the temporal variant with an empty ground-truth
enumeration fails with an `IndexError`, not with the assertion. -/
theorem c3_counterexample :
    (viperEvaluate 0 "viper" 20 10 [] ⟨0, 0, 0, 0, 0, 0, 0, 0⟩).result
        = .error .indexError
    ∧ PyError.indexError ≠ PyError.assertionError :=
  ⟨rfl, by decide⟩

/-- **C3** witness: a concrete run in which a non-empty enumeration
subsamples to zero files and the assertion fires. -/
theorem c3_zero_groundtruth_witness :
    (viperEvaluate 0 "viper" 20 10 ["g/v_00000.png"] ⟨0, 0, 0, 0, 0, 0, 0, 0⟩).result
      = .error .assertionError :=
  c3_zero_groundtruth.2.2.2 "viper" 20 10 ["g/v_00000.png"] "g/v_00000.png" [] 0
    ⟨0, 0, 0, 0, 0, 0, 0, 0⟩ (by decide) rfl rfl rfl

/-- On the `cityscapes` branch, if the skip interval is non-zero and every
(sorted) file name's frame index parses, the loop either ends quietly (the
unbound read then happens at line 256) or hits the unbound `.append`. -/
theorem filterLoopCS_all_parse (inf_start skip_interv start_idx : Nat)
    (hk : skip_interv ≠ 0) :
    ∀ l : List String, (∀ g ∈ l, (frameIdx? g).isSome) →
      filterLoopCS inf_start skip_interv start_idx l = none
      ∨ filterLoopCS inf_start skip_interv start_idx l = some .unboundLocalError := by
  intro l
  induction l with
  | nil => exact fun _ => Or.inl rfl
  | cons g gs ih =>
    intro hall
    have hg := hall g (List.mem_cons_self g gs)
    cases hf : frameIdx? g with
    | none => rw [hf] at hg; simp at hg
    | some n =>
      simp only [filterLoopCS, hf]
      by_cases h1 : inf_start < n
      · rw [if_pos h1, if_neg hk]
        by_cases h2 : n % skip_interv = start_idx
        · rw [if_pos h2]; exact Or.inr rfl
        · rw [if_neg h2]
          exact ih fun x hx => hall x (List.mem_cons_of_mem g hx)
      · rw [if_neg h1]
        exact ih fun x hx => hall x (List.mem_cons_of_mem g hx)

/-- **C9** (corrected): with dataset type `'cityscapes'`, the temporal
variant's `evaluate()` on the coordinator never completes normally — its
result is always an exception.  The exception is the unbound-name error of
the never-assigned accumulator `groundTruthImgList_tmp` whenever the sorted
enumeration is non-empty, the skip interval is non-zero and every file name's
frame index parses; an empty enumeration raises `IndexError` and an
unparseable frame index raises `ValueError` at line 250, before the unbound
name is reached. -/
theorem c9_cityscapes_never_ok :
    (∀ (inf_start skip_interv : Nat) (globResult : List String) (r : ViperScores),
      ∃ e : PyError,
        (viperEvaluate 0 "cityscapes" inf_start skip_interv globResult r).result
          = .error e)
    ∧ (∀ (inf_start skip_interv : Nat) (globResult : List String) (r : ViperScores),
        skip_interv ≠ 0 →
        sortStrings globResult ≠ [] →
        (∀ g ∈ sortStrings globResult, (frameIdx? g).isSome) →
        (viperEvaluate 0 "cityscapes" inf_start skip_interv globResult r).result
          = .error .unboundLocalError) := by
  constructor
  · intro a k l r
    unfold viperEvaluate
    rw [if_neg (Nat.lt_irrefl 0)]
    cases hs : sortStrings l with
    | nil => exact ⟨.indexError, rfl⟩
    | cons f rest =>
      dsimp only
      cases hf : frameIdx? f with
      | none => exact ⟨.valueError, rfl⟩
      | some s =>
        dsimp only
        rw [if_pos rfl]
        exact ⟨_, rfl⟩
  · intro a k l r hk hne hall
    unfold viperEvaluate
    rw [if_neg (Nat.lt_irrefl 0)]
    cases hs : sortStrings l with
    | nil => exact absurd hs hne
    | cons f rest =>
      rw [hs] at hall
      have hg := hall f (List.mem_cons_self f rest)
      dsimp only
      cases hf : frameIdx? f with
      | none => rw [hf] at hg; simp at hg
      | some s =>
        dsimp only
        rw [if_pos rfl]
        rcases filterLoopCS_all_parse a k s hk (f :: rest) hall with h | h <;>
          simp [h]

/-- **C9** counterexample: with dataset type `'cityscapes'` and a standard
cityscapes ground-truth file name, `int("labelIds")` at line 250 raises a
`ValueError` — not an unbound-name error — before the filtering loop runs. -/
theorem c9_counterexample :
    (viperEvaluate 0 "cityscapes" 20 10
        ["gt/aachen_000000_000019_gtFine_labelIds.png"]
        ⟨0, 0, 0, 0, 0, 0, 0, 0⟩).result = .error .valueError
    ∧ PyError.valueError ≠ PyError.unboundLocalError :=
  ⟨rfl, by decide⟩

/-- **C9** witness: a concrete `cityscapes` run with a parseable frame index
hits the unbound accumulator. -/
theorem c9_cityscapes_never_ok_witness :
    (viperEvaluate 0 "cityscapes" 20 10 ["g/v_00000.png"]
        ⟨0, 0, 0, 0, 0, 0, 0, 0⟩).result = .error .unboundLocalError :=
  c9_cityscapes_never_ok.2 20 10 ["g/v_00000.png"] ⟨0, 0, 0, 0, 0, 0, 0, 0⟩
    (by decide) (by decide) (by decide)

/-- Numpy masked assignment acting on a mapped array acts pointwise. -/
theorem npWhereSet_map (tid v : Nat) (f : Nat → Nat) :
    ∀ output : List Nat,
      npWhereSet output tid v (output.map f)
        = output.map fun t => if t = tid then v else f t := by
  intro output
  induction output with
  | nil => rfl
  | cons t ts ih =>
    simp only [npWhereSet, List.map_cons, List.zip_cons_cons] at ih ⊢
    rw [ih]

/-- The table fold over a whole pixel array is the pointwise per-pixel fold. -/
theorem semSegImage_foldl (output : List Nat) :
    ∀ (table : List (Nat × CSLabel)) (f : Nat → Nat),
      table.foldl
        (fun pred kv => if kv.2.ignoreInEval then pred
          else npWhereSet output kv.1 kv.2.id pred)
        (output.map f)
      = output.map fun t => semSegPixelFrom table (f t) t := by
  intro table
  induction table with
  | nil => intro f; rfl
  | cons kv tbl ih =>
    intro f
    obtain ⟨k1, lb⟩ := kv
    rw [List.foldl_cons]
    dsimp only
    cases hig : lb.ignoreInEval with
    | true =>
      rw [if_pos rfl, ih f]
      have h2 : (fun t => semSegPixelFrom ((k1, lb) :: tbl) (f t) t)
          = fun t => semSegPixelFrom tbl (f t) t := by
        funext t
        simp [semSegPixelFrom, List.foldl_cons, hig]
      rw [h2]
    | false =>
      rw [if_neg Bool.false_ne_true, npWhereSet_map k1 lb.id f output,
        ih fun t => if t = k1 then lb.id else f t]
      have h2 : (fun t => semSegPixelFrom ((k1, lb) :: tbl) (f t) t)
          = fun t => semSegPixelFrom tbl (if t = k1 then lb.id else f t) t := by
        funext t
        simp [semSegPixelFrom, List.foldl_cons, hig]
      rw [h2]

/-- The written label image is the per-pixel fold mapped over the class map. -/
theorem semSegImage_eq_map (table : List (Nat × CSLabel)) (output : List Nat) :
    semSegImage table output = output.map fun t => semSegPixelFrom table 255 t :=
  semSegImage_foldl output table fun _ => 255

/-- If every table entry for class `t` is ignore-marked, the fold keeps the
current value. -/
theorem semSegPixelFrom_all_ignored (t : Nat) :
    ∀ (table : List (Nat × CSLabel)) (v0 : Nat),
      (∀ lb : CSLabel, (t, lb) ∈ table → lb.ignoreInEval = true) →
      semSegPixelFrom table v0 t = v0 := by
  intro table
  induction table with
  | nil => intro v0 _; rfl
  | cons kv tbl ih =>
    obtain ⟨k1, lb⟩ := kv
    intro v0 hall
    simp only [semSegPixelFrom, List.foldl_cons]
    by_cases hig : lb.ignoreInEval = true
    · rw [if_pos hig]
      exact ih v0 fun x hx => hall x (List.mem_cons_of_mem (k1, lb) hx)
    · rw [if_neg hig]
      by_cases ht : t = k1
      · exact absurd (hall lb (by rw [ht]; exact List.mem_cons_self (k1, lb) tbl)) hig
      · rw [if_neg ht]
        exact ih v0 fun x hx => hall x (List.mem_cons_of_mem (k1, lb) hx)

/-- If class `t` has no table entry at all, the fold keeps the current
value. -/
theorem semSegPixelFrom_not_mem (t : Nat) :
    ∀ (table : List (Nat × CSLabel)) (v0 : Nat),
      t ∉ table.map Prod.fst → semSegPixelFrom table v0 t = v0 := by
  intro table
  induction table with
  | nil => intro v0 _; rfl
  | cons kv tbl ih =>
    obtain ⟨k1, lb⟩ := kv
    intro v0 hmem
    simp only [List.map_cons, List.mem_cons] at hmem
    push_neg at hmem
    simp only [semSegPixelFrom, List.foldl_cons]
    by_cases hig : lb.ignoreInEval = true
    · rw [if_pos hig]
      exact ih v0 hmem.2
    · rw [if_neg hig, if_neg hmem.1]
      exact ih v0 hmem.2

/-- With duplicate-free keys, a non-ignored entry `(t, lb)` forces the fold's
result to `lb.id`. -/
theorem semSegPixelFrom_found (t : Nat) (lb : CSLabel) :
    ∀ (table : List (Nat × CSLabel)) (v0 : Nat),
      (table.map Prod.fst).Nodup → (t, lb) ∈ table → lb.ignoreInEval = false →
      semSegPixelFrom table v0 t = lb.id := by
  intro table
  induction table with
  | nil => intro v0 _ hmem; cases hmem
  | cons kv tbl ih =>
    obtain ⟨k1, lb2⟩ := kv
    intro v0 hnd hmem hig
    simp only [List.map_cons, List.nodup_cons] at hnd
    simp only [semSegPixelFrom, List.foldl_cons]
    rcases List.mem_cons.mp hmem with heq | hmem2
    · have ht : t = k1 := congrArg Prod.fst heq
      have hlb : lb = lb2 := congrArg Prod.snd heq
      subst ht
      subst hlb
      rw [if_neg (by simp [hig]), if_pos rfl]
      exact semSegPixelFrom_not_mem t tbl lb.id hnd.1
    · have htk : t ≠ k1 := by
        intro ht
        apply hnd.1
        rw [← ht]
        exact List.mem_map_of_mem Prod.fst hmem2
      by_cases hig2 : lb2.ignoreInEval = true
      · rw [if_pos hig2]
        exact ih v0 hnd.2 hmem2 hig
      · rw [if_neg hig2, if_neg htk]
        exact ih v0 hnd.2 hmem2 hig

/-- **C4** (confirmed): in the semantic variant's `process()`, every pixel of
the written label image is the external label id mapped from that pixel's
predicted (argmax) train-id when that train-id is a non-ignored entry of the
label table, and the sentinel 255 otherwise (unmapped or ignore-marked),
provided the table's keys are duplicate-free (Python dictionaries guarantee
this). -/
theorem c4_semseg_pixels (trainId2label : List (Nat × CSLabel))
    (temp_dir file_name : String) (output : List Nat) (i t : Nat)
    (hnd : (trainId2label.map Prod.fst).Nodup)
    (ht : output.get? i = some t) :
    (∃ lb : CSLabel, (t, lb) ∈ trainId2label ∧ lb.ignoreInEval = false
        ∧ (semSegProcessImage trainId2label temp_dir file_name output).pixels.get? i
            = some lb.id)
    ∨ ((∀ lb : CSLabel, (t, lb) ∈ trainId2label → lb.ignoreInEval = true)
        ∧ (semSegProcessImage trainId2label temp_dir file_name output).pixels.get? i
            = some 255) := by
  have hpx : (semSegProcessImage trainId2label temp_dir file_name output).pixels
      = output.map fun x => semSegPixelFrom trainId2label 255 x :=
    semSegImage_eq_map trainId2label output
  by_cases hex : ∃ lb : CSLabel, (t, lb) ∈ trainId2label ∧ lb.ignoreInEval = false
  · obtain ⟨lb, hmem, hig⟩ := hex
    left
    refine ⟨lb, hmem, hig, ?_⟩
    rw [hpx, List.get?_map, ht, Option.map_some']
    rw [semSegPixelFrom_found t lb trainId2label 255 hnd hmem hig]
  · right
    push_neg at hex
    have hall : ∀ lb : CSLabel, (t, lb) ∈ trainId2label → lb.ignoreInEval = true := by
      intro lb hmem
      cases hb : lb.ignoreInEval with
      | true => rfl
      | false => exact absurd hb (hex lb hmem)
    refine ⟨hall, ?_⟩
    rw [hpx, List.get?_map, ht, Option.map_some']
    rw [semSegPixelFrom_all_ignored t trainId2label 255 hall]

/-- **C4** witness: a concrete semantic `process` call (pixel 0 predicts the
mapped, non-ignored class 0; the table also holds the ignore-marked class 1). -/
theorem c4_semseg_pixels_witness :
    (∃ lb : CSLabel,
        ((0 : Nat), lb) ∈ [((0 : Nat), CSLabel.mk 7 false), (1, CSLabel.mk 9 true)]
        ∧ lb.ignoreInEval = false
        ∧ (semSegProcessImage [((0 : Nat), CSLabel.mk 7 false), (1, CSLabel.mk 9 true)]
              "t" "a/b.png" [0, 1, 5]).pixels.get? 0 = some lb.id)
    ∨ ((∀ lb : CSLabel,
          ((0 : Nat), lb) ∈ [((0 : Nat), CSLabel.mk 7 false), (1, CSLabel.mk 9 true)]
          → lb.ignoreInEval = true)
        ∧ (semSegProcessImage [((0 : Nat), CSLabel.mk 7 false), (1, CSLabel.mk 9 true)]
              "t" "a/b.png" [0, 1, 5]).pixels.get? 0 = some 255) :=
  c4_semseg_pixels [((0 : Nat), CSLabel.mk 7 false), (1, CSLabel.mk 9 true)]
    "t" "a/b.png" [0, 1, 5] 0 0 (by decide) rfl

/-- The per-instance loop emits exactly one record per instance, whatever the
starting loop index. -/
theorem instanceRecords_length (thing_classes : List String) (name2labelId : String → Nat)
    (temp_dir basename : String) :
    ∀ (i : Nat) (instances : List InstanceOut),
      (instanceRecords thing_classes name2labelId temp_dir basename i instances).length
        = instances.length := by
  intro i instances
  induction instances generalizing i with
  | nil => rfl
  | cons inst rest ih => simp [instanceRecords, ih]

/-- Given binary 0/1 masks, every pixel of every emitted mask record is 0 or
255 (the `uint8` product `m * 255`). -/
theorem instanceRecords_mask_pixels (thing_classes : List String)
    (name2labelId : String → Nat) (temp_dir basename : String) :
    ∀ (i : Nat) (instances : List InstanceOut),
      (∀ inst ∈ instances, ∀ row ∈ inst.pred_mask, ∀ m ∈ row, m = 0 ∨ m = 1) →
      ∀ rec ∈ instanceRecords thing_classes name2labelId temp_dir basename i instances,
        ∀ row ∈ rec.2.pixels, ∀ p ∈ row, p = 0 ∨ p = 255 := by
  intro i instances
  induction instances generalizing i with
  | nil => intro _ rec hrec; cases hrec
  | cons inst rest ih =>
    intro hbin rec hrec
    simp only [instanceRecords] at hrec
    rcases List.mem_cons.mp hrec with heq | hmem
    · subst heq
      intro row hrow p hp
      simp only [List.mem_map] at hrow
      obtain ⟨row0, hrow0, hrow0eq⟩ := hrow
      subst hrow0eq
      simp only [List.mem_map] at hp
      obtain ⟨m, hm, hmeq⟩ := hp
      subst hmeq
      rcases hbin inst (List.mem_cons_self inst rest) row0 hrow0 m hm with h0 | h1
      · left; subst h0; rfl
      · right; subst h1; rfl
    · exact ih (i + 1) (fun x hx => hbin x (List.mem_cons_of_mem inst hx)) rec hmem

/-- **C5** (confirmed): for every instance-variant `process()` image with `N`
detected instances, exactly `N` manifest lines are written (one per detected
object, recording mask file name, external class id and confidence score),
with one mask file per line, and — given binary 0/1 input masks — every
written mask pixel is 0 or 255. -/
theorem c5_instance_process (thing_classes : List String) (name2labelId : String → Nat)
    (temp_dir file_name : String) (instances : List InstanceOut)
    (hbin : ∀ inst ∈ instances, ∀ row ∈ inst.pred_mask, ∀ m ∈ row, m = 0 ∨ m = 1) :
    (instanceProcessImage thing_classes name2labelId temp_dir file_name
        instances).lines.length = instances.length
    ∧ (instanceProcessImage thing_classes name2labelId temp_dir file_name
        instances).masks.length = instances.length
    ∧ ∀ mf ∈ (instanceProcessImage thing_classes name2labelId temp_dir file_name
        instances).masks, ∀ row ∈ mf.pixels, ∀ p ∈ row, p = 0 ∨ p = 255 := by
  refine ⟨?_, ?_, ?_⟩
  · simp [instanceProcessImage, instanceRecords_length]
  · simp [instanceProcessImage, instanceRecords_length]
  · intro mf hmf row hrow p hp
    simp only [instanceProcessImage, List.mem_map] at hmf
    obtain ⟨rec, hrec, hrecEq⟩ := hmf
    subst hrecEq
    exact instanceRecords_mask_pixels thing_classes name2labelId temp_dir
      (splitextRoot (osBasename file_name)) 0 instances hbin rec hrec row hrow p hp

/-- **C5** witness: one instance with a two-row binary mask. -/
theorem c5_instance_process_witness :
    (instanceProcessImage ["car"] (fun _ => 26) "t" "a/b.png"
        [⟨0, 1/2, [[0, 1], [1, 0]]⟩]).lines.length
      = [(⟨0, 1/2, [[0, 1], [1, 0]]⟩ : InstanceOut)].length
    ∧ (instanceProcessImage ["car"] (fun _ => 26) "t" "a/b.png"
        [⟨0, 1/2, [[0, 1], [1, 0]]⟩]).masks.length
      = [(⟨0, 1/2, [[0, 1], [1, 0]]⟩ : InstanceOut)].length
    ∧ ∀ mf ∈ (instanceProcessImage ["car"] (fun _ => 26) "t" "a/b.png"
        [⟨0, 1/2, [[0, 1], [1, 0]]⟩]).masks,
        ∀ row ∈ mf.pixels, ∀ p ∈ row, p = 0 ∨ p = 255 :=
  c5_instance_process ["car"] (fun _ => 26) "t" "a/b.png"
    [⟨0, 1/2, [[0, 1], [1, 0]]⟩] (by decide)

/-- **C10** (confirmed): with zero detected instances the manifest
`{basename}_pred.txt` is still created — the written record exists with an
empty line list — and no mask file is written. -/
theorem c10_empty_manifest (thing_classes : List String) (name2labelId : String → Nat)
    (temp_dir file_name : String) :
    instanceProcessImage thing_classes name2labelId temp_dir file_name []
      = { pred_txt := pathJoin temp_dir (splitextRoot (osBasename file_name) ++ "_pred.txt")
          lines := []
          masks := [] } := rfl

/-- **C6** (confirmed): a completed instance-variant round on the coordinator
returns a mapping whose only group is `"segm"`, holding exactly the keys
`"AP"` and `"AP50"`, each the external scorer's average-precision result
scaled by 100. -/
theorem c6_instance_metrics_keys (globResult : List String) (h : globResult ≠ [])
    (r : InstScores) :
    (instanceEvaluate 0 globResult r).result = .ok (some (instRet r))
    ∧ instRet r = [("segm", [("AP", r.allAp * 100), ("AP50", r.allAp50 * 100)])]
    ∧ (instRet r).map Prod.fst = ["segm"]
    ∧ ((instRet r).headD ("", [])).2.map Prod.fst = ["AP", "AP50"] := by
  refine ⟨?_, rfl, rfl, rfl⟩
  cases globResult with
  | nil => exact absurd rfl h
  | cons a l => rfl

/-- **C6** witness: a concrete completed round. -/
theorem c6_instance_metrics_keys_witness :
    (instanceEvaluate 0 ["x"] ⟨1, 2⟩).result = .ok (some (instRet ⟨1, 2⟩))
    ∧ instRet ⟨1, 2⟩
        = [("segm", [("AP", (⟨1, 2⟩ : InstScores).allAp * 100),
            ("AP50", (⟨1, 2⟩ : InstScores).allAp50 * 100)])]
    ∧ (instRet ⟨1, 2⟩).map Prod.fst = ["segm"]
    ∧ ((instRet ⟨1, 2⟩).headD ("", [])).2.map Prod.fst = ["AP", "AP50"] :=
  c6_instance_metrics_keys ["x"] (by decide) ⟨1, 2⟩

/-- **C7** (confirmed): on every worker of positive rank, each of the three
evaluators' `evaluate()` returns right after the barrier with no result —
no ground-truth enumeration, no scoring and no scratch-directory cleanup
appear in its effect trace. -/
theorem c7_nonzero_rank (rank : Nat) (h : 0 < rank)
    (l1 l2 l3 : List String) (ir : InstScores) (sr : SemScores)
    (dataset_type : String) (inf_start skip_interv : Nat) (vr : ViperScores) :
    instanceEvaluate rank l1 ir = ⟨[Effect.barrier], .ok none⟩
    ∧ semSegEvaluate rank l2 sr = ⟨[Effect.barrier], .ok none⟩
    ∧ viperEvaluate rank dataset_type inf_start skip_interv l3 vr
        = ⟨[Effect.barrier], .ok none⟩ := by
  refine ⟨?_, ?_, ?_⟩
  · unfold instanceEvaluate
    rw [if_pos h]
  · unfold semSegEvaluate
    rw [if_pos h]
  · unfold viperEvaluate
    rw [if_pos h]

/-- **C7** witness: rank 1, all three variants. -/
theorem c7_nonzero_rank_witness :
    instanceEvaluate 1 [] ⟨0, 0⟩ = ⟨[Effect.barrier], .ok none⟩
    ∧ semSegEvaluate 1 [] ⟨0, 0, 0, 0⟩ = ⟨[Effect.barrier], .ok none⟩
    ∧ viperEvaluate 1 "viper" 20 10 [] ⟨0, 0, 0, 0, 0, 0, 0, 0⟩
        = ⟨[Effect.barrier], .ok none⟩ :=
  c7_nonzero_rank 1 (by decide) [] [] [] ⟨0, 0⟩ ⟨0, 0, 0, 0⟩ "viper" 20 10
    ⟨0, 0, 0, 0, 0, 0, 0, 0⟩

/-- **C8** (confirmed): `build_model` fails with the unknown-key error and
constructs nothing when the configured variant name is not registered; for a
registered name it returns exactly the registered constructor's object moved
to the configured device, with its weights-loaded state untouched. -/
theorem c8_build_model :
    (∀ (registry : List (String × (NeckCfg → NNModule))) (cfg : NeckCfg),
        (∀ p ∈ registry, p.1 ≠ cfg.MODEL_EXTRA_NECK) →
        build_model registry cfg = .error (.keyError cfg.MODEL_EXTRA_NECK))
    ∧ (∀ (registry : List (String × (NeckCfg → NNModule))) (cfg : NeckCfg)
        (ctor : NeckCfg → NNModule),
        registryGet registry cfg.MODEL_EXTRA_NECK = .ok ctor →
        build_model registry cfg = .ok ((ctor cfg).to cfg.MODEL_DEVICE)
        ∧ ((ctor cfg).to cfg.MODEL_DEVICE).device = cfg.MODEL_DEVICE
        ∧ ((ctor cfg).to cfg.MODEL_DEVICE).weightsLoaded = (ctor cfg).weightsLoaded
        ∧ ((ctor cfg).to cfg.MODEL_DEVICE).payload = (ctor cfg).payload) := by
  constructor
  · intro registry cfg hmiss
    have hfind : registry.find? (fun p => p.1 = cfg.MODEL_EXTRA_NECK) = none := by
      rw [List.find?_eq_none]
      intro p hp
      simpa using hmiss p hp
    unfold build_model registryGet
    rw [hfind]
  · intro registry cfg ctor hget
    unfold build_model
    rw [hget]
    exact ⟨rfl, rfl, rfl, rfl⟩

/-- **C8** witness: a miss and a hit on a one-entry registry. -/
theorem c8_build_model_witness :
    build_model [("FPN", fun _ => ⟨7, "meta", false⟩)] ⟨"X", "cuda"⟩
        = .error (.keyError "X")
    ∧ build_model [("FPN", fun _ => ⟨7, "meta", false⟩)] ⟨"FPN", "cuda"⟩
        = .ok ⟨7, "cuda", false⟩ :=
  ⟨c8_build_model.1 [("FPN", fun _ => ⟨7, "meta", false⟩)] ⟨"X", "cuda"⟩
      (by
        intro p hp
        rw [List.mem_singleton] at hp
        subst hp
        decide),
    (c8_build_model.2 [("FPN", fun _ => ⟨7, "meta", false⟩)] ⟨"FPN", "cuda"⟩
      (fun _ => ⟨7, "meta", false⟩) rfl).1⟩
